import Mathlib

/-
Verification of the hierarchical index & lookup module
(src/agent/agent_tools/work_code_functools/__init__.py).

The module works over a YAML document loaded by `yaml.safe_load`, i.e. over
dynamically typed Python values.  We embed those values shallowly as the
inductive type `Val` below (null / int / str / list / dict with insertion
order preserved; YAML floats and booleans are not used by any claim and are
left out of the value universe).  Code paths that can raise a Python
exception (attribute access such as `.get` or `.strip()` on a value of the
wrong type) are embedded in `Except String`, with `.error` standing for a
raised exception.
-/

namespace WorkCode

inductive Val where
  | null : Val
  | int : Int → Val
  | str : String → Val
  | list : List Val → Val
  | dict : List (String × Val) → Val
deriving Repr, Inhabited

/-- Python truthiness for the embedded values (`bool(v)`). -/
def truthy : Val → Bool
  | .null => false
  | .int n => n != 0
  | .str s => s != ""
  | .list xs => !xs.isEmpty
  | .dict es => !es.isEmpty

/-- Embeds `d.get(k, default)` for a value known (or required) to be a dict;
raises `AttributeError` (modelled as `.error`) when `v` is not a dict,
exactly as Python `.get` on a non-dict does. -/
def pyDictGet (v : Val) (k : String) (dflt : Val) : Except String Val :=
  match v with
  | .dict es => .ok ((es.lookup k).getD dflt)
  | _ => .error "AttributeError"

/-- Total variant of dict lookup used only by the spec-side model and the
well-formedness checker (never by the embedded code itself). -/
def dictGetD (v : Val) (k : String) (dflt : Val) : Val :=
  match v with
  | .dict es => (es.lookup k).getD dflt
  | _ => dflt

/-- Python `str.isspace` characters relevant to `strip()` (ASCII whitespace;
exotic unicode whitespace is not exercised by the data). -/
def is_py_space (c : Char) : Bool :=
  c == ' ' || c == '\t' || c == '\n' || c == '\r' || c == '\x0b' || c == '\x0c'

def strip_chars (cs : List Char) : List Char :=
  ((cs.dropWhile is_py_space).reverse.dropWhile is_py_space).reverse

/-- Python `s.strip()` (implemented on the character list so that it is
kernel-computable). -/
def pyTrim (s : String) : String :=
  ⟨strip_chars s.data⟩

/-- Embeds `v.strip()`: succeeds on strings, raises `AttributeError` otherwise. -/
def pyStrip (v : Val) : Except String String :=
  match v with
  | .str s => .ok (pyTrim s)
  | _ => .error "AttributeError"

/-- Embeds `_as_list`: `value if isinstance(value, list) else []`. -/
def as_list : Val → List Val
  | .list xs => xs
  | _ => []

/-- Embeds the payload extraction (get with empty-dict default, then the falsy-to-empty-dict `or`) — falsy payloads are replaced by an
empty dict. -/
def payload_of (v : Val) : Val :=
  if truthy v then v else Val.dict []

/-- Python `s.split("_")` on the character list (always returns at least one
group, like Python's `split` with a non-empty separator). -/
def split_us : List Char → List (List Char)
  | [] => [[]]
  | c :: rest =>
    let r := split_us rest
    if c == '_' then [] :: r
    else
      match r with
      | [] => [[c]]
      | g :: gs => (c :: g) :: gs

/-- Embeds `_suffix_number`: `key.split("_")[-1]`. -/
def suffix_number (key : String) : String :=
  ⟨(split_us key.data).getLastD []⟩

def digits_to_nat (cs : List Char) : Nat :=
  cs.foldl (fun a c => a * 10 + (c.toNat - 48)) 0

def parse_digits : List Char → Option Nat
  | [] => none
  | cs => if cs.all Char.isDigit then some (digits_to_nat cs) else none

/-- CPython `int(s)` for a decimal string literal: surrounding whitespace is
stripped, an optional single sign is allowed, then one or more ASCII digits
(the rarely used digit-group underscores and non-ASCII digits are not
modelled; no claim exercises them). -/
def pyIntOfString (s : String) : Option Int :=
  match strip_chars s.data with
  | '-' :: rest => (parse_digits rest).map (fun m => -(m : Int))
  | '+' :: rest => (parse_digits rest).map (fun m => (m : Int))
  | cs => (parse_digits cs).map (fun m => (m : Int))

/-- Embeds `_as_int`: `int(value)` returning `None` on `TypeError`/`ValueError`.
`int()` succeeds on ints and on integer-literal strings and fails on
`None`, lists and dicts. -/
def as_int : Val → Option Int
  | .int n => some n
  | .str s => pyIntOfString s
  | _ => none

/-- The set `{x for x in (_as_int(a) for a in xs) if x is not None}`,
as the list of parseable integers (membership is all that is used). -/
def int_members (xs : List Val) : List Int :=
  xs.filterMap as_int

/-- Embeds `_min_max_int`: min and max of the parseable integers of the list,
`(None, None)` when there are none. -/
def min_max_int (values : List Val) : Option Int × Option Int :=
  match values.filterMap as_int with
  | [] => (none, none)
  | x :: xs => (some (xs.foldl min x), some (xs.foldl max x))

mutual
/-- Python `repr` for the embedded values (string escaping inside quotes is
elided; no claim exercises `repr`). -/
def pyRepr : Val → String
  | .null => "None"
  | .int n => toString n
  | .str s => "\x27" ++ s ++ "\x27"
  | .list xs => "[" ++ pyReprList xs ++ "]"
  | .dict es => "\x7b" ++ pyReprDict es ++ "\x7d"

def pyReprList : List Val → String
  | [] => ""
  | [x] => pyRepr x
  | x :: xs => pyRepr x ++ ", " ++ pyReprList xs

def pyReprDict : List (String × Val) → String
  | [] => ""
  | [(k, v)] => "\x27" ++ k ++ "\x27: " ++ pyRepr v
  | (k, v) :: es => "\x27" ++ k ++ "\x27: " ++ pyRepr v ++ ", " ++ pyReprDict es
end

/-- Python `str(v)`. -/
def pyStr : Val → String
  | .str s => s
  | v => pyRepr v

/-- Embeds `sep.join(parts)` (kernel-computable). -/
def join_with (sep : String) : List String → String
  | [] => ""
  | [s] => s
  | s :: rest => s ++ sep ++ join_with sep rest

/-- Embeds `_format_article_numbers`: `", ".join(str(x) for x in xs)`. -/
def format_article_numbers (xs : List Val) : String :=
  join_with ", " (xs.map pyStr)

/-- Embeds the final `join` of the parts with newlines. -/
def join_lines (parts : List String) : String :=
  join_with "\n" parts

/- ------------------------------------------------------------------
Outline renderer (`get_work_code_structure`, source lines 49-153).
Each Python loop body over a child list becomes a helper function on one
list item; items failing the `isinstance(item, dict) or not item` guard
contribute nothing.  The f-strings of the source become the line-builder
functions below.
------------------------------------------------------------------- -/

def title_chapters_header (idx nm : String) (cnt : Nat) : String :=
  "Titre " ++ idx ++ " : " ++ nm ++ ". Ce titre contient " ++ toString cnt
    ++ " chapitre(s), qui sont :"

def title_direct_line (idx nm : String) (cnt : Nat) (listing : String) : String :=
  "Titre " ++ idx ++ " : " ++ nm
    ++ ". Ce titre ne contient pas de chapitres et contient directement "
    ++ toString cnt ++ " article(s) : " ++ listing ++ "."

def title_empty_line (idx nm : String) : String :=
  "Titre " ++ idx ++ " : " ++ nm ++ ". Ce titre ne contient ni chapitres ni articles listés."

def chapter_sections_header (idx nm : String) (scnt total : Nat) (listing : String) : String :=
  "- Chapitre " ++ idx ++ " : " ++ nm ++ ". Ce chapitre contient " ++ toString scnt
    ++ " section(s). Au total, ces sections contiennent " ++ toString total
    ++ " article(s) : " ++ listing ++ "."

def sections_list_header : String := "  Les sections sont :"

def section_line (idx nm : String) (cnt : Nat) (listing : String) : String :=
  "  - Section " ++ idx ++ " : " ++ nm ++ ". Cette section contient " ++ toString cnt
    ++ " article(s) : " ++ listing ++ "."

def chapter_direct_line (idx nm : String) (cnt : Nat) (listing : String) : String :=
  "- Chapitre " ++ idx ++ " : " ++ nm ++ ". Ce chapitre contient " ++ toString cnt
    ++ " article(s) : " ++ listing ++ "."

def chapter_empty_line (idx nm : String) : String :=
  "- Chapitre " ++ idx ++ " : " ++ nm ++ ". Ce chapitre ne contient ni sections ni articles listés."

def no_structure_msg : String := "(Aucune structure trouvée)"

/-- Embeds `_collect_articles_from_sections` (source lines 38-46): concatenates the
`articles` lists of the well-shaped section items, in order; raises if a
section payload is a truthy non-dict. -/
def collect_articles_from_sections : List Val → Except String (List Val)
  | [] => .ok []
  | item :: rest =>
    match item with
    | .dict ((_, v) :: _) =>
      match pyDictGet (payload_of v) "articles" Val.null with
      | .error e => .error e
      | .ok artsV =>
        match collect_articles_from_sections rest with
        | .error e => .error e
        | .ok tail => .ok (as_list artsV ++ tail)
    | _ => collect_articles_from_sections rest

/-- Loop body of the section loop (source lines 121-138): the lines
contributed by one section item. -/
def render_section (item : Val) : Except String (List String) :=
  match item with
  | .dict ((section_key, v) :: _) =>
    match pyDictGet (payload_of v) "name" (Val.str "") with
    | .error e => .error e
    | .ok nameV =>
      match pyStrip nameV with
      | .error e => .error e
      | .ok stripped =>
        let section_name := if stripped = "" then "(sans nom)" else stripped
        match pyDictGet (payload_of v) "articles" Val.null with
        | .error e => .error e
        | .ok articlesV =>
          let arts := as_list articlesV
          .ok [section_line (suffix_number section_key) section_name arts.length
                (format_article_numbers arts)]
  | _ => .ok []

def render_sections : List Val → Except String (List String)
  | [] => .ok []
  | item :: rest =>
    match render_section item with
    | .error e => .error e
    | .ok ls =>
      match render_sections rest with
      | .error e => .error e
      | .ok more => .ok (ls ++ more)

/-- Loop body of the chapter loop (source lines 98-149). -/
def render_chapter (item : Val) : Except String (List String) :=
  match item with
  | .dict ((chapter_key, v) :: _) =>
    match pyDictGet (payload_of v) "name" (Val.str "") with
    | .error e => .error e
    | .ok nameV =>
      match pyStrip nameV with
      | .error e => .error e
      | .ok stripped =>
        let chapter_name := if stripped = "" then "(sans nom)" else stripped
        match pyDictGet (payload_of v) "sections" Val.null with
        | .error e => .error e
        | .ok sectionsV =>
          match pyDictGet (payload_of v) "articles" Val.null with
          | .error e => .error e
          | .ok articlesV =>
            let sections := as_list sectionsV
            let chapter_articles := as_list articlesV
            if sections.isEmpty then
              if chapter_articles.isEmpty then
                .ok [chapter_empty_line (suffix_number chapter_key) chapter_name]
              else
                .ok [chapter_direct_line (suffix_number chapter_key) chapter_name
                       chapter_articles.length (format_article_numbers chapter_articles)]
            else
              match collect_articles_from_sections sections with
              | .error e => .error e
              | .ok section_articles =>
                match render_sections sections with
                | .error e => .error e
                | .ok secLines =>
                  .ok (chapter_sections_header (suffix_number chapter_key) chapter_name
                         sections.length section_articles.length
                         (format_article_numbers section_articles)
                       :: sections_list_header :: secLines)
  | _ => .ok []

def render_chapters : List Val → Except String (List String)
  | [] => .ok []
  | item :: rest =>
    match render_chapter item with
    | .error e => .error e
    | .ok ls =>
      match render_chapters rest with
      | .error e => .error e
      | .ok more => .ok (ls ++ more)

/-- Loop body of the title loop (source lines 64-151), including the blank
separator line appended after each title block. -/
def render_title (item : Val) : Except String (List String) :=
  match item with
  | .dict ((title_key, v) :: _) =>
    match pyDictGet (payload_of v) "name" (Val.str "") with
    | .error e => .error e
    | .ok nameV =>
      match pyStrip nameV with
      | .error e => .error e
      | .ok stripped =>
        let title_name := if stripped = "" then "(sans nom)" else stripped
        match pyDictGet (payload_of v) "chapters" Val.null with
        | .error e => .error e
        | .ok chaptersV =>
          match pyDictGet (payload_of v) "articles" Val.null with
          | .error e => .error e
          | .ok articlesV =>
            let chapters := as_list chaptersV
            let direct_articles := as_list articlesV
            if chapters.isEmpty then
              if direct_articles.isEmpty then
                .ok [title_empty_line (suffix_number title_key) title_name, ""]
              else
                .ok [title_direct_line (suffix_number title_key) title_name
                       direct_articles.length (format_article_numbers direct_articles), ""]
            else
              match render_chapters chapters with
              | .error e => .error e
              | .ok chLines =>
                .ok (title_chapters_header (suffix_number title_key) title_name chapters.length
                     :: (chLines ++ [""]))
  | _ => .ok []

def render_titles : List Val → Except String (List String)
  | [] => .ok []
  | item :: rest =>
    match render_title item with
    | .error e => .error e
    | .ok ls =>
      match render_titles rest with
      | .error e => .error e
      | .ok more => .ok (ls ++ more)

/-- Embeds `get_work_code_structure` on an already-loaded document value
(the Python function loads `data.yaml` and then computes exactly this);
`outline or ["(Aucune structure trouvée)"]` is the final line. -/
def get_work_code_structure (data : Val) : Except String (List String) :=
  match pyDictGet data "titles" Val.null with
  | .error e => .error e
  | .ok tv =>
    match render_titles (as_list tv) with
    | .error e => .error e
    | .ok outline => .ok (if outline = [] then [no_structure_msg] else outline)

/- ------------------------------------------------------------------
Article lookup (`_article_text_by_number`, `_find_article_location`,
`get_article_by_number`, source lines 156-341).
------------------------------------------------------------------- -/

structure LocRef where
  index : String
  name : String
deriving Repr, DecidableEq, Inhabited

structure Location where
  title : Option LocRef
  chapter : Option LocRef
  «section» : Option LocRef
  container_articles : List Val
  articles_count : Nat
  articles_range : Option Int × Option Int
deriving Repr, Inhabited

/-- The default location returned when no container holds the article
(source lines 282-288). -/
def not_found_location : Location :=
  { title := none, chapter := none, «section» := none,
    container_articles := [], articles_count := 0, articles_range := (none, none) }

/-- Loop of `_article_text_by_number` (source lines 176-183): first item
whose key's numeric suffix equals `n`; string values are stripped, other
values go through `str(...)`. -/
def article_text_in_items (n : Int) : List Val → Option String
  | [] => none
  | item :: rest =>
    match item with
    | .dict ((key, v) :: _) =>
      if pyIntOfString (suffix_number key) = some n then
        some (match v with | .str s => pyTrim s | w => pyStr w)
      else article_text_in_items n rest
    | _ => article_text_in_items n rest

def article_text_by_number (data : Val) (n : Int) : Except String (Option String) :=
  match pyDictGet data "articles" Val.null with
  | .error e => .error e
  | .ok av => .ok (article_text_in_items n (as_list av))

/-- Section loop of `_find_article_location` (source lines 254-280). -/
def find_in_sections (t c : LocRef) (n : Int) : List Val → Except String (Option Location)
  | [] => .ok none
  | item :: rest =>
    match item with
    | .dict ((section_key, v) :: _) =>
      match pyDictGet (payload_of v) "name" (Val.str "") with
      | .error e => .error e
      | .ok nameV =>
        match pyStrip (if truthy nameV then nameV else Val.str "") with
        | .error e => .error e
        | .ok stripped =>
          let section_name := if stripped = "" then "(sans nom)" else stripped
          match pyDictGet (payload_of v) "articles" Val.null with
          | .error e => .error e
          | .ok articlesV =>
            let section_articles := as_list articlesV
            if (int_members section_articles).contains n then
              .ok (some { title := some t, chapter := some c,
                          «section» := some ⟨suffix_number section_key, section_name⟩,
                          container_articles := section_articles,
                          articles_count := section_articles.length,
                          articles_range := min_max_int section_articles })
            else find_in_sections t c n rest
    | _ => find_in_sections t c n rest

/-- Chapter loop of `_find_article_location` (source lines 223-280). -/
def find_in_chapters (t : LocRef) (n : Int) : List Val → Except String (Option Location)
  | [] => .ok none
  | item :: rest =>
    match item with
    | .dict ((chapter_key, v) :: _) =>
      match pyDictGet (payload_of v) "name" (Val.str "") with
      | .error e => .error e
      | .ok nameV =>
        match pyStrip (if truthy nameV then nameV else Val.str "") with
        | .error e => .error e
        | .ok stripped =>
          let chapter_name := if stripped = "" then "(sans nom)" else stripped
          match pyDictGet (payload_of v) "articles" Val.null with
          | .error e => .error e
          | .ok articlesV =>
            let chapter_articles := as_list articlesV
            if (int_members chapter_articles).contains n then
              .ok (some { title := some t,
                          chapter := some ⟨suffix_number chapter_key, chapter_name⟩,
                          «section» := none,
                          container_articles := chapter_articles,
                          articles_count := chapter_articles.length,
                          articles_range := min_max_int chapter_articles })
            else
              match pyDictGet (payload_of v) "sections" Val.null with
              | .error e => .error e
              | .ok sectionsV =>
                match find_in_sections t ⟨suffix_number chapter_key, chapter_name⟩ n
                        (as_list sectionsV) with
                | .error e => .error e
                | .ok (some loc) => .ok (some loc)
                | .ok none => find_in_chapters t n rest
    | _ => find_in_chapters t n rest

/-- Title loop of `_find_article_location` (source lines 195-280). -/
def find_in_titles (n : Int) : List Val → Except String (Option Location)
  | [] => .ok none
  | item :: rest =>
    match item with
    | .dict ((title_key, v) :: _) =>
      match pyDictGet (payload_of v) "name" (Val.str "") with
      | .error e => .error e
      | .ok nameV =>
        match pyStrip (if truthy nameV then nameV else Val.str "") with
        | .error e => .error e
        | .ok stripped =>
          let title_name := if stripped = "" then "(sans nom)" else stripped
          match pyDictGet (payload_of v) "articles" Val.null with
          | .error e => .error e
          | .ok articlesV =>
            let direct_articles := as_list articlesV
            if (int_members direct_articles).contains n then
              .ok (some { title := some ⟨suffix_number title_key, title_name⟩,
                          chapter := none, «section» := none,
                          container_articles := direct_articles,
                          articles_count := direct_articles.length,
                          articles_range := min_max_int direct_articles })
            else
              match pyDictGet (payload_of v) "chapters" Val.null with
              | .error e => .error e
              | .ok chaptersV =>
                match find_in_chapters ⟨suffix_number title_key, title_name⟩ n
                        (as_list chaptersV) with
                | .error e => .error e
                | .ok (some loc) => .ok (some loc)
                | .ok none => find_in_titles n rest
    | _ => find_in_titles n rest

/-- Embeds `_find_article_location` (source lines 186-288). -/
def find_article_location (data : Val) (n : Int) : Except String Location :=
  match pyDictGet data "titles" Val.null with
  | .error e => .error e
  | .ok tv =>
    match find_in_titles n (as_list tv) with
    | .error e => .error e
    | .ok (some loc) => .ok loc
    | .ok none => .ok not_found_location

def invalid_msg : String := "Invalid article_number: expected a positive integer."

def not_found_msg (n : Int) : String :=
  "Article " ++ toString n ++ " not found in data.yaml."

def title_ctx_line (r : LocRef) : String := "- Titre " ++ r.index ++ " : " ++ r.name

def chapter_ctx_line (r : LocRef) : String := "- Chapitre " ++ r.index ++ " : " ++ r.name

def section_ctx_line (r : LocRef) : String := "- Section " ++ r.index ++ " : " ++ r.name

/-- Embeds the f-string rendering of the two range slots (None or a number). -/
def showOptInt : Option Int → String
  | none => "None"
  | some i => toString i

/-- The container-statistics line (source lines 336-339). -/
def bloc_stats_line (loc : Location) : String :=
  "- Le même bloc contient " ++ toString loc.articles_count ++ " article(s) (plage "
    ++ showOptInt loc.articles_range.1 ++ " à " ++ showOptInt loc.articles_range.2
    ++ ") : " ++ format_article_numbers loc.container_articles ++ "."

/-- The `parts` list built in `get_article_by_number` (source lines 312-339). -/
def article_parts (n : Int) (text : String) (loc : Location) : List String :=
  ["Article " ++ toString n, "", "Texte :", text, "", "Contexte (structure) :"]
  ++ (match loc.title with | some r => [title_ctx_line r] | none => [])
  ++ (match loc.chapter with | some r => [chapter_ctx_line r] | none => [])
  ++ (match loc.«section» with | some r => [section_ctx_line r] | none => [])
  ++ (if loc.container_articles.isEmpty then [] else [bloc_stats_line loc])

/-- Embeds `if not text:` on the Optional text — `None` and the empty string both
count as absent. -/
def effective_text : Option String → Option String
  | none => none
  | some t => if t = "" then none else some t

/-- Embeds `get_article_by_number` (source lines 298-341) on an already-loaded
document value; the tool argument is an arbitrary Python value put through
`_as_int`. -/
def get_article_by_number (data : Val) (article_number : Val) : Except String String :=
  match as_int article_number with
  | none => .ok invalid_msg
  | some n =>
    if n ≤ 0 then .ok invalid_msg
    else
      match article_text_by_number data n with
      | .error e => .error e
      | .ok t? =>
        match effective_text t? with
        | none => .ok (not_found_msg n)
        | some text =>
          match find_article_location data n with
          | .error e => .error e
          | .ok location => .ok (join_lines (article_parts n text location))

/- ------------------------------------------------------------------
Spec-side model of the lookup, for the refinement claim C2.  Following the
spec's words: the outline is a list of containers visited in a fixed
pre-order — titles in stored order, each title's direct article list before
its chapters, each chapter's direct article list before its sections,
sections in stored order — and lookup returns the first container whose
(integer-parsing) article entries contain `n`.
------------------------------------------------------------------- -/

structure Container where
  title : LocRef
  chapter : Option LocRef
  «section» : Option LocRef
  articles : List Val
deriving Repr, Inhabited

/-- The Location the code reports for a found container. -/
def loc_of_container (c : Container) : Location :=
  { title := some c.title, chapter := c.chapter, «section» := c.«section»,
    container_articles := c.articles,
    articles_count := c.articles.length,
    articles_range := min_max_int c.articles }

/-- Total model of the display name
`(payload.get("name", "") or "").strip() or "(sans nom)"` (agrees with the
raising embedding on every well-formed payload). -/
def loc_name_v (p : Val) : String :=
  match dictGetD p "name" (Val.str "") with
  | .str s => if pyTrim s = "" then "(sans nom)" else pyTrim s
  | _ => "(sans nom)"

def containers_of_sections (t c : LocRef) : List Val → List Container
  | [] => []
  | item :: rest =>
    match item with
    | .dict ((k, v) :: _) =>
      let p := payload_of v
      { title := t, chapter := some c,
        «section» := some ⟨suffix_number k, loc_name_v p⟩,
        articles := as_list (dictGetD p "articles" Val.null) }
        :: containers_of_sections t c rest
    | _ => containers_of_sections t c rest

def containers_of_chapters (t : LocRef) : List Val → List Container
  | [] => []
  | item :: rest =>
    match item with
    | .dict ((k, v) :: _) =>
      let p := payload_of v
      let cref : LocRef := ⟨suffix_number k, loc_name_v p⟩
      ({ title := t, chapter := some cref, «section» := none,
         articles := as_list (dictGetD p "articles" Val.null) }
        :: containers_of_sections t cref (as_list (dictGetD p "sections" Val.null)))
        ++ containers_of_chapters t rest
    | _ => containers_of_chapters t rest

def containers_of_titles : List Val → List Container
  | [] => []
  | item :: rest =>
    match item with
    | .dict ((k, v) :: _) =>
      let p := payload_of v
      let tref : LocRef := ⟨suffix_number k, loc_name_v p⟩
      ({ title := tref, chapter := none, «section» := none,
         articles := as_list (dictGetD p "articles" Val.null) }
        :: containers_of_chapters tref (as_list (dictGetD p "chapters" Val.null)))
        ++ containers_of_titles rest
    | _ => containers_of_titles rest

/-- All outline containers of a document in the spec's pre-order. -/
def preorder_containers (data : Val) : List Container :=
  containers_of_titles (as_list (dictGetD data "titles" Val.null))

/-- The first-match predicate: the container's article list holds `n`
(among the entries that parse as integers). -/
def holds_article (n : Int) (c : Container) : Bool :=
  (int_members c.articles).contains n

/- ------------------------------------------------------------------
Well-formedness of a loaded document, modelling the configuration format of
spec §6: the value of every single-key container mapping is itself a mapping
and its `name` field (when present and truthy) is a string.  Every source
conforming to §6 satisfies this; it is exactly what rules out the reachable
`AttributeError`s of the lookup path.
------------------------------------------------------------------- -/

def name_ok (es : List (String × Val)) : Bool :=
  match (es.lookup "name").getD (Val.str "") with
  | .str _ => true
  | w => !truthy w

def wf_section_item (item : Val) : Bool :=
  match item with
  | .dict ((_, v) :: _) =>
    match payload_of v with
    | .dict es => name_ok es
    | _ => false
  | _ => true

def wf_chapter_item (item : Val) : Bool :=
  match item with
  | .dict ((_, v) :: _) =>
    match payload_of v with
    | .dict es =>
      name_ok es && (as_list ((es.lookup "sections").getD Val.null)).all wf_section_item
    | _ => false
  | _ => true

def wf_title_item (item : Val) : Bool :=
  match item with
  | .dict ((_, v) :: _) =>
    match payload_of v with
    | .dict es =>
      name_ok es && (as_list ((es.lookup "chapters").getD Val.null)).all wf_chapter_item
    | _ => false
  | _ => true

def wf_data (data : Val) : Bool :=
  match data with
  | .dict es => (as_list ((es.lookup "titles").getD Val.null)).all wf_title_item
  | _ => false

/-- The spec-side lookup: the first container of the fixed pre-order whose
article list holds `n`; the all-`None` location when there is none. -/
def find_article_location_model (data : Val) (n : Int) : Location :=
  match (preorder_containers data).find? (holds_article n) with
  | some c => loc_of_container c
  | none => not_found_location

/- ------------------------------------------------------------------
Helper lemmas.
------------------------------------------------------------------- -/

/-- On a well-formed payload, the raising name computation of the lookup
path succeeds and displays `loc_name_v`. -/
lemma pyTrim_empty : pyTrim "" = "" := by decide

lemma name_step (es : List (String × Val)) (h : name_ok es = true) :
    ∃ s, pyStrip (if truthy ((es.lookup "name").getD (Val.str ""))
                  then (es.lookup "name").getD (Val.str "") else Val.str "") = .ok s
      ∧ (if s = "" then "(sans nom)" else s) = loc_name_v (Val.dict es) := by
  unfold name_ok at h
  unfold loc_name_v dictGetD
  cases hv : (es.lookup "name").getD (Val.str "") with
  | str t =>
    by_cases ht : t = ""
    · subst ht
      exact ⟨"", by simp [pyStrip, truthy, pyTrim_empty], by simp [hv, pyTrim_empty]⟩
    · refine ⟨pyTrim t, ?_, by simp [hv]⟩
      have : truthy (Val.str t) = true := by simp [truthy, ht]
      simp [this, pyStrip]
  | null =>
    rw [hv] at h
    exact ⟨"", by simp [pyStrip, truthy, pyTrim_empty], by simp [hv]⟩
  | int m =>
    rw [hv] at h
    have : truthy (Val.int m) = false := by
      simpa [Bool.not_eq_true'] using h
    exact ⟨"", by simp [this, pyStrip, pyTrim_empty], by simp [hv]⟩
  | list xs =>
    rw [hv] at h
    have : truthy (Val.list xs) = false := by
      simpa [Bool.not_eq_true'] using h
    exact ⟨"", by simp [this, pyStrip, pyTrim_empty], by simp [hv]⟩
  | dict es2 =>
    rw [hv] at h
    have : truthy (Val.dict es2) = false := by
      simpa [Bool.not_eq_true'] using h
    exact ⟨"", by simp [this, pyStrip, pyTrim_empty], by simp [hv]⟩

/-- The section loop agrees with first-match over the spec-side container
list, on well-formed section items. -/
lemma find_in_sections_spec (t c : LocRef) (n : Int) :
    ∀ ss : List Val, ss.all wf_section_item = true →
      find_in_sections t c n ss =
        .ok (((containers_of_sections t c ss).find? (holds_article n)).map loc_of_container) := by
  intro ss
  induction ss with
  | nil => intro _; rfl
  | cons item rest ih =>
    intro h
    rw [List.all_cons, Bool.and_eq_true] at h
    obtain ⟨hitem, hrest⟩ := h
    cases item with
    | null => simpa [find_in_sections, containers_of_sections] using ih hrest
    | int m => simpa [find_in_sections, containers_of_sections] using ih hrest
    | str s => simpa [find_in_sections, containers_of_sections] using ih hrest
    | list xs => simpa [find_in_sections, containers_of_sections] using ih hrest
    | dict es =>
      cases es with
      | nil => simpa [find_in_sections, containers_of_sections] using ih hrest
      | cons kv tl =>
        obtain ⟨k, v⟩ := kv
        cases hp : payload_of v with
        | dict es2 =>
          have hname : name_ok es2 = true := by
            simpa [wf_section_item, hp] using hitem
          obtain ⟨s, hstrip, hdisp⟩ := name_step es2 hname
          by_cases hc : (int_members (as_list ((es2.lookup "articles").getD Val.null))).contains n = true
          · have hm : n ∈ int_members (as_list ((es2.lookup "articles").getD Val.null)) := by
              simpa using hc
            have hpc : holds_article n
                ⟨t, some c, some ⟨suffix_number k, loc_name_v (Val.dict es2)⟩,
                 as_list ((es2.lookup "articles").getD Val.null)⟩ = true := by
              simpa [holds_article] using hc
            simp [find_in_sections, containers_of_sections, hp, pyDictGet, hstrip, hdisp,
                  dictGetD, hm, List.find?_cons_of_pos _ hpc, loc_of_container]
          · rw [Bool.not_eq_true] at hc
            have hm : n ∉ int_members (as_list ((es2.lookup "articles").getD Val.null)) := by
              simpa using hc
            have hpc : ¬ holds_article n
                ⟨t, some c, some ⟨suffix_number k, loc_name_v (Val.dict es2)⟩,
                 as_list ((es2.lookup "articles").getD Val.null)⟩ = true := by
              simpa [holds_article] using hc
            simp [find_in_sections, containers_of_sections, hp, pyDictGet, hstrip, dictGetD,
                  hm, List.find?_cons_of_neg _ hpc, ih hrest]
        | null => simp [wf_section_item, hp] at hitem
        | int m => simp [wf_section_item, hp] at hitem
        | str s => simp [wf_section_item, hp] at hitem
        | list xs => simp [wf_section_item, hp] at hitem

/-- The chapter loop agrees with first-match over the spec-side container
list (chapter direct articles before its sections), on well-formed
chapter items. -/
lemma find_in_chapters_spec (t : LocRef) (n : Int) :
    ∀ cs : List Val, cs.all wf_chapter_item = true →
      find_in_chapters t n cs =
        .ok (((containers_of_chapters t cs).find? (holds_article n)).map loc_of_container) := by
  intro cs
  induction cs with
  | nil => intro _; rfl
  | cons item rest ih =>
    intro h
    rw [List.all_cons, Bool.and_eq_true] at h
    obtain ⟨hitem, hrest⟩ := h
    cases item with
    | null => simpa [find_in_chapters, containers_of_chapters] using ih hrest
    | int m => simpa [find_in_chapters, containers_of_chapters] using ih hrest
    | str s => simpa [find_in_chapters, containers_of_chapters] using ih hrest
    | list xs => simpa [find_in_chapters, containers_of_chapters] using ih hrest
    | dict es =>
      cases es with
      | nil => simpa [find_in_chapters, containers_of_chapters] using ih hrest
      | cons kv tl =>
        obtain ⟨k, v⟩ := kv
        cases hp : payload_of v with
        | dict es2 =>
          have hwf : name_ok es2 = true ∧
              (as_list ((es2.lookup "sections").getD Val.null)).all wf_section_item = true := by
            simpa [wf_chapter_item, hp, Bool.and_eq_true] using hitem
          obtain ⟨hname, hsecs⟩ := hwf
          obtain ⟨s, hstrip, hdisp⟩ := name_step es2 hname
          by_cases hc : (int_members (as_list ((es2.lookup "articles").getD Val.null))).contains n = true
          · have hm : n ∈ int_members (as_list ((es2.lookup "articles").getD Val.null)) := by
              simpa using hc
            have hpc : holds_article n
                ⟨t, some ⟨suffix_number k, loc_name_v (Val.dict es2)⟩, none,
                 as_list ((es2.lookup "articles").getD Val.null)⟩ = true := by
              simpa [holds_article] using hc
            simp [find_in_chapters, containers_of_chapters, hp, pyDictGet, hstrip, hdisp,
                  dictGetD, hm, List.find?_append, List.find?_cons_of_pos _ hpc, loc_of_container]
          · rw [Bool.not_eq_true] at hc
            have hm : n ∉ int_members (as_list ((es2.lookup "articles").getD Val.null)) := by
              simpa using hc
            have hpc : ¬ holds_article n
                ⟨t, some ⟨suffix_number k, loc_name_v (Val.dict es2)⟩, none,
                 as_list ((es2.lookup "articles").getD Val.null)⟩ = true := by
              simpa [holds_article] using hc
            have hsec := find_in_sections_spec t ⟨suffix_number k, loc_name_v (Val.dict es2)⟩ n
              (as_list ((es2.lookup "sections").getD Val.null)) hsecs
            cases hfind : (containers_of_sections t ⟨suffix_number k, loc_name_v (Val.dict es2)⟩
                (as_list ((es2.lookup "sections").getD Val.null))).find? (holds_article n) with
            | some c0 =>
              simp [find_in_chapters, containers_of_chapters, hp, pyDictGet, hstrip, hdisp,
                    dictGetD, hm, List.find?_append, List.find?_cons_of_neg _ hpc, hsec, hfind]
            | none =>
              simp [find_in_chapters, containers_of_chapters, hp, pyDictGet, hstrip, hdisp,
                    dictGetD, hm, List.find?_append, List.find?_cons_of_neg _ hpc, hsec, hfind,
                    ih hrest]
        | null => simp [wf_chapter_item, hp] at hitem
        | int m => simp [wf_chapter_item, hp] at hitem
        | str s => simp [wf_chapter_item, hp] at hitem
        | list xs => simp [wf_chapter_item, hp] at hitem

/-- The title loop agrees with first-match over the spec-side container
list (title direct articles before its chapters), on well-formed title
items. -/
lemma find_in_titles_spec (n : Int) :
    ∀ ts : List Val, ts.all wf_title_item = true →
      find_in_titles n ts =
        .ok (((containers_of_titles ts).find? (holds_article n)).map loc_of_container) := by
  intro ts
  induction ts with
  | nil => intro _; rfl
  | cons item rest ih =>
    intro h
    rw [List.all_cons, Bool.and_eq_true] at h
    obtain ⟨hitem, hrest⟩ := h
    cases item with
    | null => simpa [find_in_titles, containers_of_titles] using ih hrest
    | int m => simpa [find_in_titles, containers_of_titles] using ih hrest
    | str s => simpa [find_in_titles, containers_of_titles] using ih hrest
    | list xs => simpa [find_in_titles, containers_of_titles] using ih hrest
    | dict es =>
      cases es with
      | nil => simpa [find_in_titles, containers_of_titles] using ih hrest
      | cons kv tl =>
        obtain ⟨k, v⟩ := kv
        cases hp : payload_of v with
        | dict es2 =>
          have hwf : name_ok es2 = true ∧
              (as_list ((es2.lookup "chapters").getD Val.null)).all wf_chapter_item = true := by
            simpa [wf_title_item, hp, Bool.and_eq_true] using hitem
          obtain ⟨hname, hchs⟩ := hwf
          obtain ⟨s, hstrip, hdisp⟩ := name_step es2 hname
          by_cases hc : (int_members (as_list ((es2.lookup "articles").getD Val.null))).contains n = true
          · have hm : n ∈ int_members (as_list ((es2.lookup "articles").getD Val.null)) := by
              simpa using hc
            have hpc : holds_article n
                ⟨⟨suffix_number k, loc_name_v (Val.dict es2)⟩, none, none,
                 as_list ((es2.lookup "articles").getD Val.null)⟩ = true := by
              simpa [holds_article] using hc
            simp [find_in_titles, containers_of_titles, hp, pyDictGet, hstrip, hdisp,
                  dictGetD, hm, List.find?_append, List.find?_cons_of_pos _ hpc, loc_of_container]
          · rw [Bool.not_eq_true] at hc
            have hm : n ∉ int_members (as_list ((es2.lookup "articles").getD Val.null)) := by
              simpa using hc
            have hpc : ¬ holds_article n
                ⟨⟨suffix_number k, loc_name_v (Val.dict es2)⟩, none, none,
                 as_list ((es2.lookup "articles").getD Val.null)⟩ = true := by
              simpa [holds_article] using hc
            have hchap := find_in_chapters_spec ⟨suffix_number k, loc_name_v (Val.dict es2)⟩ n
              (as_list ((es2.lookup "chapters").getD Val.null)) hchs
            cases hfind : (containers_of_chapters ⟨suffix_number k, loc_name_v (Val.dict es2)⟩
                (as_list ((es2.lookup "chapters").getD Val.null))).find? (holds_article n) with
            | some c0 =>
              simp [find_in_titles, containers_of_titles, hp, pyDictGet, hstrip, hdisp,
                    dictGetD, hm, List.find?_append, List.find?_cons_of_neg _ hpc, hchap, hfind]
            | none =>
              simp [find_in_titles, containers_of_titles, hp, pyDictGet, hstrip, hdisp,
                    dictGetD, hm, List.find?_append, List.find?_cons_of_neg _ hpc, hchap, hfind,
                    ih hrest]
        | null => simp [wf_title_item, hp] at hitem
        | int m => simp [wf_title_item, hp] at hitem
        | str s => simp [wf_title_item, hp] at hitem
        | list xs => simp [wf_title_item, hp] at hitem

/-- On a well-formed document, `_find_article_location` raises nothing and
returns exactly the spec-side first-match result. -/
lemma find_article_location_eq_model (data : Val) (n : Int) (h : wf_data data = true) :
    find_article_location data n = .ok (find_article_location_model data n) := by
  cases data with
  | null => simp [wf_data] at h
  | int m => simp [wf_data] at h
  | str s => simp [wf_data] at h
  | list xs => simp [wf_data] at h
  | dict es =>
    have hall : (as_list ((es.lookup "titles").getD Val.null)).all wf_title_item = true := by
      simpa [wf_data] using h
    have htit := find_in_titles_spec n (as_list ((es.lookup "titles").getD Val.null)) hall
    cases hfind : (containers_of_titles (as_list ((es.lookup "titles").getD Val.null))).find?
        (holds_article n) with
    | some c =>
      simp [find_article_location, pyDictGet, htit, hfind, find_article_location_model,
            preorder_containers, dictGetD]
    | none =>
      simp [find_article_location, pyDictGet, htit, hfind, find_article_location_model,
            preorder_containers, dictGetD]

/-- Python `min` with a running accumulator stays in the candidate list. -/
lemma foldl_min_mem : ∀ (xs : List Int) (x : Int), xs.foldl min x ∈ x :: xs := by
  intro xs
  induction xs with
  | nil => intro x; simp
  | cons a l ih =>
    intro x
    have h := ih (min x a)
    simp only [List.foldl_cons]
    rcases List.mem_cons.mp h with h1 | h1
    · rcases min_choice x a with hm | hm
      · rw [h1, hm]; exact List.mem_cons_self _ _
      · rw [h1, hm]; exact List.mem_cons_of_mem _ (List.mem_cons_self _ _)
    · exact List.mem_cons_of_mem _ (List.mem_cons_of_mem _ h1)

lemma foldl_min_le : ∀ (xs : List Int) (x y : Int), y ∈ x :: xs → xs.foldl min x ≤ y := by
  intro xs
  induction xs with
  | nil =>
    intro x y hy
    simp only [List.foldl_nil]
    rcases List.mem_cons.mp hy with h | h
    · exact le_of_eq h.symm
    · simp at h
  | cons a l ih =>
    intro x y hy
    simp only [List.foldl_cons]
    rcases List.mem_cons.mp hy with h1 | h1
    · rw [h1]
      exact le_trans (ih (min x a) (min x a) (List.mem_cons_self _ _)) (min_le_left _ _)
    · rcases List.mem_cons.mp h1 with h2 | h2
      · rw [h2]
        exact le_trans (ih (min x a) (min x a) (List.mem_cons_self _ _)) (min_le_right _ _)
      · exact ih (min x a) y (List.mem_cons_of_mem _ h2)

/-- Python `max` with a running accumulator stays in the candidate list. -/
lemma foldl_max_mem : ∀ (xs : List Int) (x : Int), xs.foldl max x ∈ x :: xs := by
  intro xs
  induction xs with
  | nil => intro x; simp
  | cons a l ih =>
    intro x
    have h := ih (max x a)
    simp only [List.foldl_cons]
    rcases List.mem_cons.mp h with h1 | h1
    · rcases max_choice x a with hm | hm
      · rw [h1, hm]; exact List.mem_cons_self _ _
      · rw [h1, hm]; exact List.mem_cons_of_mem _ (List.mem_cons_self _ _)
    · exact List.mem_cons_of_mem _ (List.mem_cons_of_mem _ h1)

lemma foldl_max_ge : ∀ (xs : List Int) (x y : Int), y ∈ x :: xs → y ≤ xs.foldl max x := by
  intro xs
  induction xs with
  | nil =>
    intro x y hy
    simp only [List.foldl_nil]
    rcases List.mem_cons.mp hy with h | h
    · exact le_of_eq h
    · simp at h
  | cons a l ih =>
    intro x y hy
    simp only [List.foldl_cons]
    rcases List.mem_cons.mp hy with h1 | h1
    · rw [h1]
      exact le_trans (le_max_left _ _) (ih (max x a) (max x a) (List.mem_cons_self _ _))
    · rcases List.mem_cons.mp h1 with h2 | h2
      · rw [h2]
        exact le_trans (le_max_right _ _) (ih (max x a) (max x a) (List.mem_cons_self _ _))
      · exact ih (max x a) y (List.mem_cons_of_mem _ h2)

/-- Every part of a joined string occurs in it as a contiguous substring
(stated on the character lists). -/
lemma mem_join_infix (sep : String) :
    ∀ (l : List String) (x : String), x ∈ l → x.data <:+: (join_with sep l).data := by
  intro l
  induction l with
  | nil => intro x hx; simp at hx
  | cons a rest ih =>
    intro x hx
    cases rest with
    | nil =>
      have hxa : x = a := by simpa using hx
      subst hxa
      exact List.infix_refl _
    | cons b rest2 =>
      rcases List.mem_cons.mp hx with h1 | h1
      · subst h1
        refine ⟨[], (sep ++ join_with sep (b :: rest2)).data, ?_⟩
        simp [join_with, String.data_append]
      · obtain ⟨s, t, hst⟩ := ih x h1
        refine ⟨(a ++ sep).data ++ s, t, ?_⟩
        simp only [join_with, String.data_append, List.append_assoc, ← hst]

/- ------------------------------------------------------------------
Claim theorems.
------------------------------------------------------------------- -/

/-- C7: for a Document whose `titles` entry yields zero titles, the renderer
returns exactly the one-element no-structure message; and for any input on
which the renderer returns at all, the returned sequence is non-empty. -/
theorem c7_empty_outline_message :
    (∀ es : List (String × Val), as_list ((es.lookup "titles").getD Val.null) = [] →
      get_work_code_structure (Val.dict es) = .ok [no_structure_msg])
    ∧ (∀ (d : Val) (ls : List String), get_work_code_structure d = .ok ls → ls ≠ []) := by
  constructor
  · intro es h
    simp [get_work_code_structure, pyDictGet, h, render_titles]
  · intro d ls h
    cases d with
    | null => simp [get_work_code_structure, pyDictGet] at h
    | int m => simp [get_work_code_structure, pyDictGet] at h
    | str s => simp [get_work_code_structure, pyDictGet] at h
    | list xs => simp [get_work_code_structure, pyDictGet] at h
    | dict es =>
      simp only [get_work_code_structure, pyDictGet] at h
      cases hr : render_titles (as_list ((es.lookup "titles").getD Val.null)) with
      | error e => rw [hr] at h; simp at h
      | ok outline =>
        rw [hr] at h
        by_cases ho : outline = []
        · rw [show (match Except.ok outline with
              | Except.error e => (Except.error e : Except String (List String))
              | Except.ok outline => Except.ok (if outline = [] then [no_structure_msg] else outline))
              = Except.ok (if outline = [] then [no_structure_msg] else outline) from rfl,
             if_pos ho] at h
          have hls : [no_structure_msg] = ls := by simpa using h
          rw [← hls]
          simp
        · rw [show (match Except.ok outline with
              | Except.error e => (Except.error e : Except String (List String))
              | Except.ok outline => Except.ok (if outline = [] then [no_structure_msg] else outline))
              = Except.ok (if outline = [] then [no_structure_msg] else outline) from rfl,
             if_neg ho] at h
          have hls : outline = ls := by simpa using h
          rw [← hls]
          exact ho

/-- C7 witness: the concrete empty document. -/
theorem c7_witness :
    get_work_code_structure (Val.dict [("titles", Val.list [])]) = .ok [no_structure_msg]
    ∧ [no_structure_msg] ≠ ([] : List String) :=
  ⟨c7_empty_outline_message.1 [("titles", Val.list [])] rfl,
   c7_empty_outline_message.2 (Val.dict [("titles", Val.list [])]) [no_structure_msg]
     (c7_empty_outline_message.1 [("titles", Val.list [])] rfl)⟩

/-- C8: the spec's worked example — one title, index 1, named
"Conditions de travail", no chapters, direct articles 40, 41, 42. -/
theorem c8_single_title_example :
    get_work_code_structure (Val.dict [("titles", Val.list [Val.dict [("title_1", Val.dict
      [("name", Val.str "Conditions de travail"),
       ("articles", Val.list [Val.int 40, Val.int 41, Val.int 42])])]])]) =
    .ok ["Titre 1 : Conditions de travail. Ce titre ne contient pas de chapitres et contient directement 3 article(s) : 40, 41, 42.", ""] := rfl

/-- The renderer call in state-passing form: the document comes back
unchanged (the source mutates nothing), so a second call sees the same
document. -/
def render_outline_call (d : Val) : Except String (List String) × Val :=
  (get_work_code_structure d, d)

/-- C9: rendering is a pure function of the Document — a call leaves the
document untouched, and a second call on the resulting document returns
the identical output. -/
theorem c9_render_outline_pure (d : Val) :
    (render_outline_call d).2 = d
    ∧ (render_outline_call ((render_outline_call d).2)).1 = (render_outline_call d).1 :=
  ⟨rfl, rfl⟩

/-- C6: whenever a title's payload has a non-empty `chapters` list and a
non-empty direct `articles` list, the rendered block is the chapter-branch
header followed by the rendered chapters and a blank line — the output is a
function of the chapters alone, so the direct article list is never
rendered. -/
theorem c6_chapters_take_precedence (title_key nm : String)
    (es more : List (String × Val)) (chs arts : List Val)
    (hname : (es.lookup "name").getD (Val.str "") = Val.str nm)
    (hch : (es.lookup "chapters").getD Val.null = Val.list chs)
    (hchne : chs ≠ [])
    (harts : (es.lookup "articles").getD Val.null = Val.list arts)
    (_hartsne : arts ≠ []) :
    render_title (Val.dict ((title_key, Val.dict es) :: more)) =
      Except.map
        (fun ls => title_chapters_header (suffix_number title_key)
            (if pyTrim nm = "" then "(sans nom)" else pyTrim nm) chs.length :: (ls ++ [""]))
        (render_chapters chs) := by
  have hes : es ≠ [] := by
    intro he
    rw [he] at hch
    simp [List.lookup] at hch
  have htr : truthy (Val.dict es) = true := by
    cases es with
    | nil => exact absurd rfl hes
    | cons a l => simp [truthy]
  have hni : chs.isEmpty = false := by
    cases chs with
    | nil => exact absurd rfl hchne
    | cons a l => rfl
  cases hrc : render_chapters chs with
  | error e =>
    simp [render_title, payload_of, htr, pyDictGet, hname, pyStrip, hch, as_list, hni, hrc,
          Except.map]
  | ok chLines =>
    simp [render_title, payload_of, htr, pyDictGet, hname, pyStrip, hch, as_list, hni, hrc,
          Except.map]

/-- C6 witness: a concrete title with both chapters and direct articles. -/
theorem c6_witness :
    render_title (Val.dict [("title_2", Val.dict
      [("name", Val.str "Travail"),
       ("chapters", Val.list [Val.dict [("chapter_1", Val.dict
          [("name", Val.str "C"), ("articles", Val.list [Val.int 1, Val.int 2])])]]),
       ("articles", Val.list [Val.int 9])])]) =
      Except.map
        (fun ls => title_chapters_header (suffix_number "title_2")
            (if pyTrim "Travail" = "" then "(sans nom)" else pyTrim "Travail") 1 :: (ls ++ [""]))
        (render_chapters [Val.dict [("chapter_1", Val.dict
          [("name", Val.str "C"), ("articles", Val.list [Val.int 1, Val.int 2])])]]) := by
  have h := c6_chapters_take_precedence "title_2" "Travail"
    [("name", Val.str "Travail"),
     ("chapters", Val.list [Val.dict [("chapter_1", Val.dict
        [("name", Val.str "C"), ("articles", Val.list [Val.int 1, Val.int 2])])]]),
     ("articles", Val.list [Val.int 9])]
    []
    [Val.dict [("chapter_1", Val.dict
       [("name", Val.str "C"), ("articles", Val.list [Val.int 1, Val.int 2])])]]
    [Val.int 9]
    rfl rfl (List.cons_ne_nil _ _) rfl (List.cons_ne_nil _ _)
  simpa using h

/-- The C10 title: three chapter entries of which two are malformed (a bare
string and an empty dict). -/
def c10_title_doc : Val := Val.dict [("title_1", Val.dict
  [("name", Val.str "T"), ("chapters", Val.list
    [ Val.dict [("chapter_7", Val.dict
        [("name", Val.str "Bon"), ("articles", Val.list [Val.int 3, Val.int 4])])]
    , Val.str "junk", Val.dict [] ])])]

/-- The C10 chapter: three section entries of which two are malformed. -/
def c10_chapter_doc : Val := Val.dict [("chapter_2", Val.dict
  [("name", Val.str "C"), ("sections", Val.list
    [ Val.dict [("section_4", Val.dict
        [("name", Val.str "S"), ("articles", Val.list [Val.int 5, Val.int 6])])]
    , Val.dict [], Val.str "x" ])])]

/-- C10: malformed child entries (non-dict or empty-dict items) are skipped
by the renderer yet still counted — the counts printed in the outline are
the raw lengths of the child lists.  A title with 3 chapter entries of
which 2 are malformed reports "3 chapitre(s)" while rendering one chapter;
a chapter with 3 section entries of which 2 are malformed reports
"3 section(s)" while rendering one section, and its aggregated article
total counts only the surviving sections' articles. -/
theorem c10_counts_are_raw_lengths :
    (∀ s : String, render_chapter (Val.str s) = .ok [])
    ∧ render_chapter (Val.dict []) = .ok []
    ∧ (∀ s : String, render_section (Val.str s) = .ok [])
    ∧ render_section (Val.dict []) = .ok []
    ∧ render_title c10_title_doc = .ok
        [title_chapters_header "1" "T" 3, chapter_direct_line "7" "Bon" 2 "3, 4", ""]
    ∧ render_chapter c10_chapter_doc = .ok
        [chapter_sections_header "2" "C" 3 2 "5, 6", sections_list_header,
         section_line "4" "S" 2 "5, 6"] :=
  ⟨fun _ => rfl, rfl, fun _ => rfl, rfl, rfl, rfl⟩

/-- C2: on a well-formed document, `_find_article_location` reports exactly
the first container of the fixed pre-order traversal (titles in stored
order, each title's direct articles before its chapters, each chapter's
direct articles before its sections, sections in stored order) whose
article list holds `n`; later containers holding `n` are ignored, and
when no container holds `n` the all-`None` location is returned. -/
theorem c2_lookup_is_preorder_first_match (data : Val) (n : Int)
    (h : wf_data data = true) :
    find_article_location data n =
      .ok (match (preorder_containers data).find? (holds_article n) with
           | some c => loc_of_container c
           | none => not_found_location) := by
  have hm := find_article_location_eq_model data n h
  simpa [find_article_location_model] using hm

/-- Document for the C2 witness: article 7 appears both in title 1's direct
list and (again) in a chapter of title 2 — the first (title) container is
the one reported. -/
def c2_doc : Val := Val.dict [("titles", Val.list
  [ Val.dict [("title_1", Val.dict
      [("name", Val.str "A"), ("articles", Val.list [Val.int 7, Val.int 8])])]
  , Val.dict [("title_2", Val.dict
      [("name", Val.str "B"), ("chapters", Val.list
        [Val.dict [("chapter_1", Val.dict
          [("name", Val.str "C"), ("articles", Val.list [Val.int 7])])]])])] ])]

/-- C2 witness: the duplicate-article document. -/
theorem c2_witness :
    wf_data c2_doc = true ∧
    find_article_location c2_doc 7 =
      .ok (match (preorder_containers c2_doc).find? (holds_article 7) with
           | some c => loc_of_container c
           | none => not_found_location) :=
  ⟨by decide, c2_lookup_is_preorder_first_match c2_doc 7 (by decide)⟩

/-- C4: on a well-formed document, `get_article_by_number` returns a string
(`.ok`) for every integer argument — no exception branch is reachable. -/
theorem c4_returns_string_never_raises (data : Val) (h : wf_data data = true)
    (k : Int) :
    ∃ s, get_article_by_number data (Val.int k) = .ok s := by
  by_cases hk : k ≤ 0
  · exact ⟨invalid_msg, by simp [get_article_by_number, as_int, hk]⟩
  · cases data with
    | null => simp [wf_data] at h
    | int m => simp [wf_data] at h
    | str s => simp [wf_data] at h
    | list xs => simp [wf_data] at h
    | dict es =>
      have hloc := find_article_location_eq_model (Val.dict es) k h
      cases he : effective_text (article_text_in_items k
          (as_list ((es.lookup "articles").getD Val.null))) with
      | none =>
        refine ⟨not_found_msg k, ?_⟩
        simp [get_article_by_number, as_int, hk, article_text_by_number, pyDictGet, he]
      | some text =>
        refine ⟨join_lines (article_parts k text
          (find_article_location_model (Val.dict es) k)), ?_⟩
        simp [get_article_by_number, as_int, hk, article_text_by_number, pyDictGet, he, hloc]

/-- Document for the C4 witness. -/
def c4_doc : Val := Val.dict
  [ ("titles", Val.list [Val.dict [("title_1", Val.dict
      [("name", Val.str "A"), ("articles", Val.list [Val.int 1])])]])
  , ("articles", Val.list [Val.dict [("article_1", Val.str "Un")]]) ]

/-- C4 witness: a zero, a negative, an absurdly large, and a present
article number all yield strings. -/
theorem c4_witness :
    (∃ s, get_article_by_number c4_doc (Val.int 0) = .ok s)
    ∧ (∃ s, get_article_by_number c4_doc (Val.int (-7)) = .ok s)
    ∧ (∃ s, get_article_by_number c4_doc (Val.int (10 ^ 30)) = .ok s)
    ∧ (∃ s, get_article_by_number c4_doc (Val.int 1) = .ok s) :=
  ⟨c4_returns_string_never_raises c4_doc (by decide) 0,
   c4_returns_string_never_raises c4_doc (by decide) (-7),
   c4_returns_string_never_raises c4_doc (by decide) (10 ^ 30),
   c4_returns_string_never_raises c4_doc (by decide) 1⟩

/-- C5: in the location `get_article_by_number` reports (and whose fields
the container-statistics line prints verbatim via `bloc_stats_line`), the
article count is the raw length of the container's article list, while the
range is the min and max of only those entries that parse as integers —
`(None, None)` when none parse, and a true min/max of the parseable entries
otherwise.  The two statistics are independent. -/
lemma min_max_int_spec (values : List Val) :
    (values.filterMap as_int = [] → min_max_int values = (none, none))
    ∧ (values.filterMap as_int ≠ [] → ∃ m M, min_max_int values = (some m, some M))
    ∧ (∀ m M, min_max_int values = (some m, some M) →
        m ∈ values.filterMap as_int ∧ M ∈ values.filterMap as_int
        ∧ ∀ y ∈ values.filterMap as_int, m ≤ y ∧ y ≤ M) := by
  unfold min_max_int
  cases hints : values.filterMap as_int with
  | nil =>
    refine ⟨fun _ => rfl, fun hne => absurd rfl hne, ?_⟩
    intro m M hr
    simp at hr
  | cons x xs =>
    refine ⟨?_, ?_, ?_⟩
    · intro hnil
      exact absurd hnil (List.cons_ne_nil x xs)
    · intro _
      exact ⟨xs.foldl min x, xs.foldl max x, rfl⟩
    · intro m M hr
      have hm1 : xs.foldl min x = m := by
        simpa using congrArg Prod.fst hr
      have hM1 : xs.foldl max x = M := by
        simpa using congrArg Prod.snd hr
      rw [← hm1, ← hM1]
      exact ⟨foldl_min_mem xs x, foldl_max_mem xs x,
        fun y hy => ⟨foldl_min_le xs x y hy, foldl_max_ge xs x y hy⟩⟩

theorem c5_container_stats (data : Val) (n : Int) (loc : Location)
    (h : wf_data data = true)
    (hloc : find_article_location data n = .ok loc) :
    loc.articles_count = loc.container_articles.length
    ∧ (loc.container_articles.filterMap as_int = [] →
        loc.articles_range = (none, none))
    ∧ (loc.container_articles.filterMap as_int ≠ [] →
        ∃ m M, loc.articles_range = (some m, some M))
    ∧ (∀ m M, loc.articles_range = (some m, some M) →
        m ∈ loc.container_articles.filterMap as_int
        ∧ M ∈ loc.container_articles.filterMap as_int
        ∧ ∀ y ∈ loc.container_articles.filterMap as_int, m ≤ y ∧ y ≤ M) := by
  have hm := find_article_location_eq_model data n h
  rw [hm] at hloc
  have hl : find_article_location_model data n = loc := by simpa using hloc
  rw [← hl]
  unfold find_article_location_model
  cases hfind : (preorder_containers data).find? (holds_article n) with
  | none =>
    refine ⟨rfl, fun _ => rfl, fun hne => absurd rfl hne, ?_⟩
    intro m M hr
    simp [not_found_location] at hr
  | some c =>
    exact ⟨rfl, (min_max_int_spec c.articles).1, (min_max_int_spec c.articles).2.1,
      (min_max_int_spec c.articles).2.2⟩

/-- Document for the C5 witness: the container holds a non-parsing entry
"bis", so the count is 3 but the range spans only the two integers. -/
def c5_doc : Val := Val.dict [("titles", Val.list [Val.dict [("title_1", Val.dict
  [("name", Val.str "T"),
   ("articles", Val.list [Val.int 40, Val.str "bis", Val.int 45])])]])]

/-- The location the code computes for article 40 in `c5_doc`. -/
def c5_loc : Location :=
  { title := some ⟨"1", "T"⟩, chapter := none, «section» := none,
    container_articles := [Val.int 40, Val.str "bis", Val.int 45],
    articles_count := 3, articles_range := (some 40, some 45) }

/-- C5 witness. -/
theorem c5_witness :
    c5_loc.articles_count = c5_loc.container_articles.length
    ∧ (c5_loc.container_articles.filterMap as_int = [] →
        c5_loc.articles_range = (none, none))
    ∧ (c5_loc.container_articles.filterMap as_int ≠ [] →
        ∃ m M, c5_loc.articles_range = (some m, some M))
    ∧ (∀ m M, c5_loc.articles_range = (some m, some M) →
        m ∈ c5_loc.container_articles.filterMap as_int
        ∧ M ∈ c5_loc.container_articles.filterMap as_int
        ∧ ∀ y ∈ c5_loc.container_articles.filterMap as_int, m ≤ y ∧ y ≤ M) :=
  c5_container_stats c5_doc 40 c5_loc (by decide) rfl

/-- Document refuting C3 as stated: the `articles` and `titles` lists are
empty, so a lookup that passes validation lands on the not-found message. -/
def c3_doc : Val := Val.dict [("titles", Val.list []), ("articles", Val.list [])]

/-- C3 counterexample: the string `"5"` is not an integer value, yet
`get_article_by_number` does not return the invalid-input message for it —
`int("5")` succeeds, so the call proceeds and returns the not-found
message for article 5. -/
theorem c3_counterexample :
    (match Val.str "5" with | Val.int _ => False | _ => True)
    ∧ get_article_by_number c3_doc (Val.str "5") = .ok (not_found_msg 5)
    ∧ not_found_msg 5 ≠ invalid_msg :=
  ⟨trivial, rfl, by decide⟩

/-- C3 (amended): for every argument value that either fails lenient integer
conversion (`int(...)` raising) or converts to an integer `≤ 0`,
`get_article_by_number` returns exactly the literal invalid-input message
and never raises — values that convert to a positive integer (such as
numeric strings) are instead treated as that article number. -/
theorem c3_invalid_input_message (data v : Val)
    (h : as_int v = none ∨ ∃ k, as_int v = some k ∧ k ≤ 0) :
    get_article_by_number data v = .ok invalid_msg := by
  rcases h with h | ⟨k, hk, hk0⟩
  · simp [get_article_by_number, h]
  · simp [get_article_by_number, hk, hk0]

/-- C3 witness: a non-convertible string, `None`, a list, zero and a
negative number all get the invalid-input message, on any document. -/
theorem c3_witness :
    get_article_by_number c3_doc (Val.str "abc") = .ok invalid_msg
    ∧ get_article_by_number c3_doc Val.null = .ok invalid_msg
    ∧ get_article_by_number c3_doc (Val.list [Val.int 3]) = .ok invalid_msg
    ∧ get_article_by_number c3_doc (Val.int 0) = .ok invalid_msg
    ∧ get_article_by_number c3_doc (Val.int (-5)) = .ok invalid_msg :=
  ⟨c3_invalid_input_message c3_doc (Val.str "abc") (Or.inl rfl),
   c3_invalid_input_message c3_doc Val.null (Or.inl rfl),
   c3_invalid_input_message c3_doc (Val.list [Val.int 3]) (Or.inl rfl),
   c3_invalid_input_message c3_doc (Val.int 0) (Or.inr ⟨0, rfl, by decide⟩),
   c3_invalid_input_message c3_doc (Val.int (-5)) (Or.inr ⟨-5, rfl, by decide⟩)⟩

/-- Document refuting C1 as stated: article 5 HAS an entry in the flat
text mapping, but its text is the empty string. -/
def c1_doc : Val := Val.dict
  [("titles", Val.list []),
   ("articles", Val.list [Val.dict [("article_5", Val.str "")]])]

/-- C1 counterexample: `article_5` is present in the text mapping (the
lookup returns its text, the empty string), yet `get_article_by_number`
returns the literal not-found message — `if not text:` treats a falsy text
as absent, so "not found exactly when `n` has no entry" fails. -/
theorem c1_counterexample :
    article_text_by_number c1_doc 5 = .ok (some "")
    ∧ get_article_by_number c1_doc (Val.int 5) = .ok (not_found_msg 5)
    ∧ not_found_msg 5 = "Article 5 not found in data.yaml." :=
  ⟨rfl, rfl, by decide⟩

/-- C1 (amended): for a positive `n` on a well-formed document, the result
is the literal not-found message exactly on the branch where the stored
text is absent or empty after trimming (`effective_text`); when an
effective text exists, the returned string contains that (trimmed) text,
and whenever `n` also appears in some outline container it additionally
contains a Title context line (a non-"unknown" structural context). -/
theorem c1_text_presence_and_context (data : Val) (n : Int) (t? : Option String)
    (hwf : wf_data data = true) (hn : 0 < n)
    (ht : article_text_by_number data n = .ok t?) :
    (effective_text t? = none →
      get_article_by_number data (Val.int n) = .ok (not_found_msg n))
    ∧ (∀ t, effective_text t? = some t →
        ∃ s, get_article_by_number data (Val.int n) = .ok s
          ∧ t.data <:+: s.data
          ∧ ((preorder_containers data).any (holds_article n) = true →
              ∃ r, (find_article_location_model data n).title = some r
                ∧ (title_ctx_line r).data <:+: s.data)) := by
  have hk : ¬ n ≤ 0 := by omega
  constructor
  · intro he
    simp [get_article_by_number, as_int, hk, ht, he]
  · intro t he
    have hloc := find_article_location_eq_model data n hwf
    refine ⟨join_lines (article_parts n t (find_article_location_model data n)), ?_, ?_, ?_⟩
    · simp [get_article_by_number, as_int, hk, ht, he, hloc]
    · apply mem_join_infix
      simp [article_parts]
    · intro hany
      have hsome : ((preorder_containers data).find? (holds_article n)).isSome := by
        rw [List.find?_isSome]
        exact List.any_eq_true.mp hany
      obtain ⟨c, hfind⟩ := Option.isSome_iff_exists.mp hsome
      refine ⟨c.title, ?_, ?_⟩
      · simp [find_article_location_model, hfind, loc_of_container]
      · apply mem_join_infix
        simp [article_parts, find_article_location_model, hfind, loc_of_container]

/-- Document for the C1 witness: article 7 with text "Sept", listed in
title 1's direct articles; article 9 has an entry with a whitespace-only
text and no outline appearance. -/
def c1_doc2 : Val := Val.dict
  [ ("titles", Val.list [Val.dict [("title_1", Val.dict
      [("name", Val.str "A"), ("articles", Val.list [Val.int 7])])]])
  , ("articles", Val.list
      [ Val.dict [("article_7", Val.str "Sept")]
      , Val.dict [("article_9", Val.str "   ")] ]) ]

/-- C1 witness: the found branch for article 7. -/
theorem c1_witness :
    (effective_text (some "Sept") = none →
      get_article_by_number c1_doc2 (Val.int 7) = .ok (not_found_msg 7))
    ∧ (∀ t, effective_text (some "Sept") = some t →
        ∃ s, get_article_by_number c1_doc2 (Val.int 7) = .ok s
          ∧ t.data <:+: s.data
          ∧ ((preorder_containers c1_doc2).any (holds_article 7) = true →
              ∃ r, (find_article_location_model c1_doc2 7).title = some r
                ∧ (title_ctx_line r).data <:+: s.data)) :=
  c1_text_presence_and_context c1_doc2 7 (some "Sept") (by decide) (by decide) rfl

end WorkCode
